import Mathlib

/-!
Shallow embedding of `disent/frameworks/semisupervised/adavae.py`.

Tensors hold real numbers; an elementwise torch operation on a pair of
tensors of identical shape is embedded as the corresponding scalar
function on `ℝ`, lifted pointwise over index functions
`Fin batch → Fin latent_dim → ℝ`.  `tensor.exp()`, `tensor.log()`,
`tensor.reciprocal()` and `tensor.pow(2)` become `Real.exp`, `Real.log`,
`Inv.inv` and `(· ^ 2)`.  A boolean mask tensor becomes a `Prop`-valued
index function.
-/

namespace Adavae

noncomputable section

open Real Classical

/-- Embedding of `kl_normal_loss_pair_elements` (adavae.py line 152), the
per-element KL delta of a pair of diagonal Gaussian posteriors.  The last
term is `(z_logvar - z_logvar)`, exactly as written in the source. -/
def kl_normal_loss_pair_elements (z_mean z_logvar z2_mean z2_logvar : ℝ) : ℝ :=
  0.5 * (Real.exp z_logvar / Real.exp z2_logvar
    + (z2_mean - z_mean) ^ 2 / Real.exp z2_logvar
    - 1 + (z_logvar - z_logvar))

/-- Modelled from the spec: the closed-form Gaussian KL delta of spec section 4.2,
`0.5 * (variance1/variance2 + (mean2-mean1)^2/variance2 - 1 + (logvar2 - logvar1))`
with `variance_i = exp(logvar_i)`.  This is what the spec prescribes for
`kl_normal_loss_pair_elements`; the source differs in the last term. -/
def kl_delta_spec_formula (mean1 logvar1 mean2 logvar2 : ℝ) : ℝ :=
  0.5 * (Real.exp logvar1 / Real.exp logvar2
    + (mean2 - mean1) ^ 2 / Real.exp logvar2
    - 1 + (logvar2 - logvar1))

/-- Embedding of `compute_average_gvae` (adavae.py lines 30-43): arithmetic
mean of the two encoder distributions, returning `(mean, logvar)`. -/
def compute_average_gvae (z_mean z_logvar z2_mean z2_logvar : ℝ) : ℝ × ℝ :=
  let z_var := Real.exp z_logvar
  let z2_var := Real.exp z2_logvar
  let ave_var := (z_var + z2_var) * 0.5
  let ave_mean := (z_mean + z2_mean) * 0.5
  (ave_mean, Real.log ave_var)

/-- Embedding of `compute_average_ml_vae` (adavae.py lines 45-65):
precision-weighted product of the two encoder distributions. -/
def compute_average_ml_vae (z_mean z_logvar z2_mean z2_logvar : ℝ) : ℝ × ℝ :=
  let z_var := Real.exp z_logvar
  let z2_var := Real.exp z2_logvar
  let z_invvar := z_var⁻¹
  let z2_invvar := z2_var⁻¹
  let ave_var := (z_invvar + z2_invvar)⁻¹
  let ave_mean := (z_mean * z_invvar + z2_mean * z2_invvar) * ave_var
  (ave_mean, Real.log ave_var)

/-- Pointwise lift of `kl_normal_loss_pair_elements` to `[batch, latent_dim]`
tensors (in the source the torch expression itself is elementwise). -/
def klDeltas {b d : ℕ} (z_mean z_logvar z2_mean z2_logvar : Fin b → Fin d → ℝ) :
    Fin b → Fin d → ℝ :=
  fun i j =>
    kl_normal_loss_pair_elements (z_mean i j) (z_logvar i j) (z2_mean i j) (z2_logvar i j)

/-- Row maximum: `tensor.max(axis=1).values` for one row of a `[batch, d]` tensor. -/
def rowMax {d : ℕ} [NeZero d] (row : Fin d → ℝ) : ℝ :=
  Finset.univ.sup' Finset.univ_nonempty row

/-- Row minimum: `tensor.min(axis=1).values` for one row of a `[batch, d]` tensor. -/
def rowMin {d : ℕ} [NeZero d] (row : Fin d → ℝ) : ℝ :=
  Finset.univ.inf' Finset.univ_nonempty row

/-- Embedding of `estimate_kl_threshold` (adavae.py lines 154-163):
`threshs = 0.5 * (kl_deltas.max(axis=1).values + kl_deltas.min(axis=1).values)`,
re-adding the flattened dimension so the result has shape `(batch_size, 1)`. -/
def estimate_kl_threshold {b d : ℕ} [NeZero d] (kl_deltas : Fin b → Fin d → ℝ) :
    Fin b → Fin 1 → ℝ :=
  fun i _ => 0.5 * (rowMax (kl_deltas i) + rowMin (kl_deltas i))

/-- Embedding of `estimate_unchanged` (adavae.py lines 67-78): returns
`(kl_deltas, kl_threshs, unchanged_mask)` where the mask is the broadcast
strict comparison `kl_deltas < kl_threshs`. -/
def estimate_unchanged {b d : ℕ} [NeZero d]
    (z_mean z_logvar z2_mean z2_logvar : Fin b → Fin d → ℝ) :
    (Fin b → Fin d → ℝ) × (Fin b → Fin 1 → ℝ) × (Fin b → Fin d → Prop) :=
  let kl_deltas := klDeltas z_mean z_logvar z2_mean z2_logvar
  let kl_threshs := estimate_kl_threshold kl_deltas
  (kl_deltas, kl_threshs, fun i j => kl_deltas i j < kl_threshs i 0)

/-- Embedding of `AdaVaeLoss.intercept_z` (adavae.py lines 103-117),
parameterised by the selected averaging function `compute_average`.
The in-place masked assignments
`z_mean[ave_mask], z_logvar[ave_mask] = ave_mu[ave_mask], ave_logvar[ave_mask]`
(and likewise for the second posterior) are embedded as the elementwise
select producing the tensors the method returns. -/
def intercept_z {b d : ℕ} [NeZero d]
    (compute_average : ℝ → ℝ → ℝ → ℝ → ℝ × ℝ)
    (z_mean z_logvar z2_mean z2_logvar : Fin b → Fin d → ℝ) :
    (Fin b → Fin d → ℝ) × (Fin b → Fin d → ℝ) × (Fin b → Fin d → ℝ) × (Fin b → Fin d → ℝ) :=
  let ave_mask := (estimate_unchanged z_mean z_logvar z2_mean z2_logvar).2.2
  let ave := fun i j =>
    compute_average (z_mean i j) (z_logvar i j) (z2_mean i j) (z2_logvar i j)
  (fun i j => if ave_mask i j then (ave i j).1 else z_mean i j,
   fun i j => if ave_mask i j then (ave i j).2 else z_logvar i j,
   fun i j => if ave_mask i j then (ave i j).1 else z2_mean i j,
   fun i j => if ave_mask i j then (ave i j).2 else z2_logvar i j)

/-- The state an `AdaVaeLoss` instance carries after construction:
`beta` (set by the `BetaVaeLoss` superclass) and the selected
averaging function `self.compute_average`. -/
structure AdaVaeLoss where
  beta : ℝ
  compute_average : ℝ → ℝ → ℝ → ℝ → ℝ × ℝ

/-- Embedding of the `AdaVaeLoss.AVERAGING_FUNCTIONS` class dictionary
(adavae.py lines 87-90). -/
def AVERAGING_FUNCTIONS : List (String × (ℝ → ℝ → ℝ → ℝ → ℝ × ℝ)) :=
  [("ml-vae", compute_average_ml_vae), ("gvae", compute_average_gvae)]

/-- Embedding of `AdaVaeLoss.__init__` (adavae.py lines 92-97): on an
unrecognised `average_mode` raise `KeyError` with a message naming the
offending value and the set of valid keys, otherwise store the selected
averaging function.  Raising is embedded as `Except.error`. -/
def AdaVaeLoss.new (beta : ℝ) (average_mode : String) : Except String AdaVaeLoss :=
  match AVERAGING_FUNCTIONS.lookup average_mode with
  | some f => Except.ok ⟨beta, f⟩
  | none =>
      Except.error ("Unsupported average_mode=" ++ average_mode
        ++ " must be one of: " ++ String.intercalate ", " (AVERAGING_FUNCTIONS.map Prod.fst))

/-- Concrete batch=1, latent_dim=2 tensor: both means identically zero. -/
def exMean : Fin 1 → Fin 2 → ℝ := fun _ _ => 0

/-- Concrete logvar tensor: identically zero. -/
def exLogvar1 : Fin 1 → Fin 2 → ℝ := fun _ _ => 0

/-- Concrete logvar tensor: `log 2` in dimension 0, zero in dimension 1. -/
def exLogvar2 : Fin 1 → Fin 2 → ℝ := fun _ j => if j = 0 then Real.log 2 else 0

/-- Concrete `[1, 2]` KL-delta tensor with row `(1, 3)`. -/
def exDeltas : Fin 1 → Fin 2 → ℝ := fun _ j => if j = 0 then 1 else 3

/-- Concrete batch=1, latent_dim=2 tensor: identically one. -/
def exMean2 : Fin 1 → Fin 2 → ℝ := fun _ _ => 1

/-- Helper: the row maximum of a two-dimensional row is the binary `max`. -/
theorem rowMax_pair (f : Fin 2 → ℝ) : rowMax f = max (f 0) (f 1) := by
  apply le_antisymm
  · refine Finset.sup'_le _ _ ?_
    intro i _
    fin_cases i
    · exact le_max_left _ _
    · exact le_max_right _ _
  · exact max_le (Finset.le_sup' f (Finset.mem_univ 0)) (Finset.le_sup' f (Finset.mem_univ 1))

/-- Helper: the row minimum of a two-dimensional row is the binary `min`. -/
theorem rowMin_pair (f : Fin 2 → ℝ) : rowMin f = min (f 0) (f 1) := by
  apply le_antisymm
  · exact le_min (Finset.inf'_le f (Finset.mem_univ 0)) (Finset.inf'_le f (Finset.mem_univ 1))
  · refine Finset.le_inf' _ _ ?_
    intro i _
    fin_cases i
    · exact min_le_left _ _
    · exact min_le_right _ _

/-- Helper: the row minimum never exceeds the row maximum. -/
theorem rowMin_le_rowMax {d : ℕ} [NeZero d] (f : Fin d → ℝ) : rowMin f ≤ rowMax f :=
  le_trans (Finset.inf'_le f (Finset.mem_univ 0)) (Finset.le_sup' f (Finset.mem_univ 0))

/-- Helper: the per-element KL delta of a posterior against itself is zero. -/
theorem kl_self (m l : ℝ) : kl_normal_loss_pair_elements m l m l = 0 := by
  simp [kl_normal_loss_pair_elements, div_self (Real.exp_ne_zero l)]

/-- Helper: the per-element KL delta from logvar `0` to logvar `log 2` with equal
zero means evaluates to `-1/4` under the source formula. -/
theorem kl_low_eval : kl_normal_loss_pair_elements 0 0 0 (Real.log 2) = -(1 / 4) := by
  have h2 : Real.exp (Real.log 2) = 2 := Real.exp_log (by norm_num)
  simp [kl_normal_loss_pair_elements, h2]
  norm_num

/-- Helper: the per-element KL delta from logvar `log 2` to logvar `0` with equal
zero means evaluates to `1/2` under the source formula. -/
theorem kl_high_eval : kl_normal_loss_pair_elements 0 (Real.log 2) 0 0 = 1 / 2 := by
  have h2 : Real.exp (Real.log 2) = 2 := Real.exp_log (by norm_num)
  simp [kl_normal_loss_pair_elements, h2]
  norm_num

/-- Helper: KL deltas of the concrete example pair, as a tensor. -/
theorem ex_deltas_eval :
    klDeltas exMean exLogvar1 exMean exLogvar2
      = fun _ j => if j = 0 then -(1 / 4) else 0 := by
  funext i j
  fin_cases j
  · simpa [klDeltas, exMean, exLogvar1, exLogvar2] using kl_low_eval
  · simpa [klDeltas, exMean, exLogvar1, exLogvar2] using kl_self 0 0

/-- Helper: KL deltas of the swapped concrete example pair, as a tensor. -/
theorem ex_deltas_swap_eval :
    klDeltas exMean exLogvar2 exMean exLogvar1
      = fun _ j => if j = 0 then 1 / 2 else 0 := by
  funext i j
  fin_cases j
  · simpa [klDeltas, exMean, exLogvar1, exLogvar2] using kl_high_eval
  · simpa [klDeltas, exMean, exLogvar1, exLogvar2] using kl_self 0 0

/-- Helper: the adaptive threshold of the concrete example pair. -/
theorem ex_thresh_eval :
    estimate_kl_threshold (klDeltas exMean exLogvar1 exMean exLogvar2) 0 0 = -(1 / 8) := by
  simp only [estimate_kl_threshold, ex_deltas_eval, rowMax_pair, rowMin_pair]
  norm_num

/-- Helper: the adaptive threshold of the swapped concrete example pair. -/
theorem ex_thresh_swap_eval :
    estimate_kl_threshold (klDeltas exMean exLogvar2 exMean exLogvar1) 0 0 = 1 / 4 := by
  simp only [estimate_kl_threshold, ex_deltas_swap_eval, rowMax_pair, rowMin_pair]
  norm_num

/-- Helper: the unchanged mask of the concrete example pair holds at dimension 0. -/
theorem ex_mask_true : (estimate_unchanged exMean exLogvar1 exMean exLogvar2).2.2 0 0 := by
  show klDeltas exMean exLogvar1 exMean exLogvar2 0 0
      < estimate_kl_threshold (klDeltas exMean exLogvar1 exMean exLogvar2) 0 0
  rw [ex_thresh_eval, ex_deltas_eval]
  norm_num

/-- Helper: the unchanged mask of the concrete example pair fails at dimension 1. -/
theorem ex_mask_false : ¬ (estimate_unchanged exMean exLogvar1 exMean exLogvar2).2.2 0 1 := by
  show ¬ (klDeltas exMean exLogvar1 exMean exLogvar2 0 1
      < estimate_kl_threshold (klDeltas exMean exLogvar1 exMean exLogvar2) 0 0)
  rw [ex_thresh_eval, ex_deltas_eval]
  norm_num

/-- Helper: the unchanged mask of the swapped concrete example pair fails at
dimension 0. -/
theorem ex_mask_swap_false :
    ¬ (estimate_unchanged exMean exLogvar2 exMean exLogvar1).2.2 0 0 := by
  show ¬ (klDeltas exMean exLogvar2 exMean exLogvar1 0 0
      < estimate_kl_threshold (klDeltas exMean exLogvar2 exMean exLogvar1) 0 0)
  rw [ex_thresh_swap_eval, ex_deltas_swap_eval]
  norm_num

/-- C3: `compute_average_gvae` returns elementwise `avg_mean = (mean1 + mean2) / 2`
and a logvar whose exponential equals the arithmetic mean
`(variance1 + variance2) / 2` of the two input variances, where
`variance_i = exp(logvar_i)`. -/
theorem compute_average_gvae_correct (z_mean z_logvar z2_mean z2_logvar : ℝ) :
    (compute_average_gvae z_mean z_logvar z2_mean z2_logvar).1 = (z_mean + z2_mean) / 2
    ∧ Real.exp (compute_average_gvae z_mean z_logvar z2_mean z2_logvar).2
        = (Real.exp z_logvar + Real.exp z2_logvar) / 2 := by
  constructor
  · simp only [compute_average_gvae]
    ring
  · have hpos : (0 : ℝ) < (Real.exp z_logvar + Real.exp z2_logvar) * 0.5 := by positivity
    simp only [compute_average_gvae, Real.exp_log hpos]
    ring

/-- C4: `compute_average_ml_vae` returns elementwise a variance
`avg_variance = 1 / (1/variance1 + 1/variance2)` (as the exponential of the
returned logvar) and a mean
`avg_mean = (mean1 * (1/variance1) + mean2 * (1/variance2)) * avg_variance`,
where `variance_i = exp(logvar_i)`. -/
theorem compute_average_ml_vae_correct (z_mean z_logvar z2_mean z2_logvar : ℝ) :
    Real.exp (compute_average_ml_vae z_mean z_logvar z2_mean z2_logvar).2
        = 1 / (1 / Real.exp z_logvar + 1 / Real.exp z2_logvar)
    ∧ (compute_average_ml_vae z_mean z_logvar z2_mean z2_logvar).1
        = (z_mean * (1 / Real.exp z_logvar) + z2_mean * (1 / Real.exp z2_logvar))
          * (1 / (1 / Real.exp z_logvar + 1 / Real.exp z2_logvar)) := by
  have hpos : (0 : ℝ) < ((Real.exp z_logvar)⁻¹ + (Real.exp z2_logvar)⁻¹)⁻¹ := by positivity
  constructor
  · simp only [compute_average_ml_vae, Real.exp_log hpos, one_div]
  · simp only [compute_average_ml_vae, one_div]

/-- C5: the variance produced by `compute_average_ml_vae` (the exponential of
its returned logvar) never exceeds the minimum of the two input variances
`exp(logvar1)` and `exp(logvar2)`. -/
theorem compute_average_ml_vae_var_le_min (z_mean z_logvar z2_mean z2_logvar : ℝ) :
    Real.exp (compute_average_ml_vae z_mean z_logvar z2_mean z2_logvar).2
      ≤ min (Real.exp z_logvar) (Real.exp z2_logvar) := by
  have h1 : (0 : ℝ) < Real.exp z_logvar := Real.exp_pos _
  have h2 : (0 : ℝ) < Real.exp z2_logvar := Real.exp_pos _
  have hpos : (0 : ℝ) < ((Real.exp z_logvar)⁻¹ + (Real.exp z2_logvar)⁻¹)⁻¹ := by positivity
  have heq : Real.exp (compute_average_ml_vae z_mean z_logvar z2_mean z2_logvar).2
      = ((Real.exp z_logvar)⁻¹ + (Real.exp z2_logvar)⁻¹)⁻¹ := by
    simp only [compute_average_ml_vae, Real.exp_log hpos]
  rw [heq]
  refine le_min ?_ ?_
  · have hle : (Real.exp z_logvar)⁻¹ ≤ (Real.exp z_logvar)⁻¹ + (Real.exp z2_logvar)⁻¹ := by
      have : (0 : ℝ) ≤ (Real.exp z2_logvar)⁻¹ := by positivity
      linarith
    have := inv_anti₀ (by positivity) hle
    simpa using this
  · have hle : (Real.exp z2_logvar)⁻¹ ≤ (Real.exp z_logvar)⁻¹ + (Real.exp z2_logvar)⁻¹ := by
      have : (0 : ℝ) ≤ (Real.exp z_logvar)⁻¹ := by positivity
      linarith
    have := inv_anti₀ (by positivity) hle
    simpa using this

/-- C7: `kl_normal_loss_pair_elements` applied to two identical copies of a
posterior (equal mean and equal logvar) returns zero at every element. -/
theorem kl_pair_identical_inputs_zero (z_mean z_logvar : ℝ) :
    kl_normal_loss_pair_elements z_mean z_logvar z_mean z_logvar = 0 :=
  kl_self z_mean z_logvar

/-- C10: the per-dimension KL deltas are not pointwise non-negative: with equal
means and `logvar1 < logvar2`, `kl_normal_loss_pair_elements` can return a
strictly negative value. -/
theorem kl_pair_elements_can_be_negative :
    ∃ m1 l1 m2 l2 : ℝ, m1 = m2 ∧ l1 < l2
      ∧ kl_normal_loss_pair_elements m1 l1 m2 l2 < 0 := by
  refine ⟨0, 0, 0, Real.log 2, rfl, Real.log_pos (by norm_num), ?_⟩
  rw [kl_low_eval]
  norm_num

/-- C1: the per-dimension KL delta computed by `kl_normal_loss_pair_elements`
does NOT match the spec formula
`0.5 * (variance1/variance2 + (mean2-mean1)^2/variance2 - 1 + (logvar2 - logvar1))`:
the source writes `(z_logvar - z_logvar)`, so its last term is identically zero,
and at `mean1 = mean2 = 0`, `logvar1 = 0`, `logvar2 = log 2` the two formulas
disagree. -/
theorem kl_delta_last_term_degenerates :
    (∀ m1 l1 m2 l2 : ℝ, kl_normal_loss_pair_elements m1 l1 m2 l2
        = 0.5 * (Real.exp l1 / Real.exp l2 + (m2 - m1) ^ 2 / Real.exp l2 - 1))
    ∧ kl_normal_loss_pair_elements 0 0 0 (Real.log 2)
        ≠ kl_delta_spec_formula 0 0 0 (Real.log 2) := by
  constructor
  · intro m1 l1 m2 l2
    simp only [kl_normal_loss_pair_elements]
    ring
  · have h2 : Real.exp (Real.log 2) = 2 := Real.exp_log (by norm_num)
    have hlog : (0 : ℝ) < Real.log 2 := Real.log_pos (by norm_num)
    rw [kl_low_eval]
    simp only [kl_delta_spec_formula, Real.exp_zero, h2]
    intro h
    nlinarith

/-- C2: after `intercept_z`, at every position where the unchanged mask is true
both returned posteriors hold exactly the averaged mean and logvar at that
position, and at every position where the mask is false each returned posterior
holds its own original, unmodified mean and logvar. -/
theorem intercept_z_frame_effect {b d : ℕ} [NeZero d]
    (compute_average : ℝ → ℝ → ℝ → ℝ → ℝ × ℝ)
    (z_mean z_logvar z2_mean z2_logvar : Fin b → Fin d → ℝ) (i : Fin b) (j : Fin d) :
    ((estimate_unchanged z_mean z_logvar z2_mean z2_logvar).2.2 i j →
        (intercept_z compute_average z_mean z_logvar z2_mean z2_logvar).1 i j
            = (compute_average (z_mean i j) (z_logvar i j) (z2_mean i j) (z2_logvar i j)).1
        ∧ (intercept_z compute_average z_mean z_logvar z2_mean z2_logvar).2.1 i j
            = (compute_average (z_mean i j) (z_logvar i j) (z2_mean i j) (z2_logvar i j)).2
        ∧ (intercept_z compute_average z_mean z_logvar z2_mean z2_logvar).2.2.1 i j
            = (compute_average (z_mean i j) (z_logvar i j) (z2_mean i j) (z2_logvar i j)).1
        ∧ (intercept_z compute_average z_mean z_logvar z2_mean z2_logvar).2.2.2 i j
            = (compute_average (z_mean i j) (z_logvar i j) (z2_mean i j) (z2_logvar i j)).2)
    ∧ (¬ (estimate_unchanged z_mean z_logvar z2_mean z2_logvar).2.2 i j →
        (intercept_z compute_average z_mean z_logvar z2_mean z2_logvar).1 i j = z_mean i j
        ∧ (intercept_z compute_average z_mean z_logvar z2_mean z2_logvar).2.1 i j
            = z_logvar i j
        ∧ (intercept_z compute_average z_mean z_logvar z2_mean z2_logvar).2.2.1 i j
            = z2_mean i j
        ∧ (intercept_z compute_average z_mean z_logvar z2_mean z2_logvar).2.2.2 i j
            = z2_logvar i j) := by
  constructor
  · intro h
    refine ⟨?_, ?_, ?_, ?_⟩ <;>
      · show (if (estimate_unchanged z_mean z_logvar z2_mean z2_logvar).2.2 i j
            then _ else _) = _
        rw [if_pos h]
  · intro h
    refine ⟨?_, ?_, ?_, ?_⟩ <;>
      · show (if (estimate_unchanged z_mean z_logvar z2_mean z2_logvar).2.2 i j
            then _ else _) = _
        rw [if_neg h]

/-- C2 witness: at the concrete example pair under `gvae` averaging, the masked
dimension 0 of the first output holds the averaged mean and the unmasked
dimension 1 keeps the original mean. -/
theorem intercept_z_frame_effect_witness :
    (intercept_z compute_average_gvae exMean exLogvar1 exMean exLogvar2).1 0 0
        = (compute_average_gvae (exMean 0 0) (exLogvar1 0 0) (exMean 0 0) (exLogvar2 0 0)).1
    ∧ (intercept_z compute_average_gvae exMean exLogvar1 exMean exLogvar2).1 0 1
        = exMean 0 1 :=
  ⟨((intercept_z_frame_effect compute_average_gvae exMean exLogvar1 exMean exLogvar2
      0 0).1 ex_mask_true).1,
   ((intercept_z_frame_effect compute_average_gvae exMean exLogvar1 exMean exLogvar2
      0 1).2 ex_mask_false).1⟩

/-- C6: for a `[batch, latent_dim]` KL-delta tensor with `latent_dim ≥ 1`
(`NeZero d`), the threshold tensor has shape `[batch, 1]`, its single entry per
row equals `0.5 * (row max + row min)`, and that entry lies between the row
minimum and maximum inclusive. -/
theorem estimate_kl_threshold_correct {b d : ℕ} [NeZero d]
    (kl_deltas : Fin b → Fin d → ℝ) (i : Fin b) (j : Fin 1) :
    estimate_kl_threshold kl_deltas i j
        = 0.5 * (rowMax (kl_deltas i) + rowMin (kl_deltas i))
    ∧ rowMin (kl_deltas i) ≤ estimate_kl_threshold kl_deltas i j
    ∧ estimate_kl_threshold kl_deltas i j ≤ rowMax (kl_deltas i) := by
  have hmm := rowMin_le_rowMax (kl_deltas i)
  refine ⟨rfl, ?_, ?_⟩
  · show rowMin (kl_deltas i) ≤ 0.5 * (rowMax (kl_deltas i) + rowMin (kl_deltas i))
    linarith
  · show 0.5 * (rowMax (kl_deltas i) + rowMin (kl_deltas i)) ≤ rowMax (kl_deltas i)
    linarith

/-- C6 witness: the theorem instantiated at the concrete `[1, 2]` delta tensor
with row `(1, 3)`. -/
theorem estimate_kl_threshold_correct_witness :
    estimate_kl_threshold exDeltas 0 0
        = 0.5 * (rowMax (exDeltas 0) + rowMin (exDeltas 0))
    ∧ rowMin (exDeltas 0) ≤ estimate_kl_threshold exDeltas 0 0
    ∧ estimate_kl_threshold exDeltas 0 0 ≤ rowMax (exDeltas 0) :=
  estimate_kl_threshold_correct exDeltas 0 0

/-- C8 counterexample: at the concrete pair with equal zero means,
`logvar1 = (0, 0)` and `logvar2 = (log 2, 0)`, swapping the two posteriors
changes the KL delta at dimension 0 and flips the unchanged mask there, so
`estimate_unchanged` is not invariant to swapping its two inputs. -/
theorem estimate_unchanged_swap_counterexample :
    (estimate_unchanged exMean exLogvar1 exMean exLogvar2).1 0 0
        ≠ (estimate_unchanged exMean exLogvar2 exMean exLogvar1).1 0 0
    ∧ (estimate_unchanged exMean exLogvar1 exMean exLogvar2).2.2 0 0
    ∧ ¬ (estimate_unchanged exMean exLogvar2 exMean exLogvar1).2.2 0 0 := by
  refine ⟨?_, ex_mask_true, ex_mask_swap_false⟩
  show klDeltas exMean exLogvar1 exMean exLogvar2 0 0
      ≠ klDeltas exMean exLogvar2 exMean exLogvar1 0 0
  rw [ex_deltas_eval, ex_deltas_swap_eval]
  norm_num

/-- C8 (amended): when the two posteriors have elementwise equal logvars,
`estimate_unchanged` is invariant to swapping them: the KL deltas, the
threshold and the unchanged mask all coincide.  (In general the implemented
KL-delta formula is asymmetric, so swapping can change all three.) -/
theorem estimate_unchanged_swap_invariant_of_eq_logvar {b d : ℕ} [NeZero d]
    (z_mean z2_mean z_logvar : Fin b → Fin d → ℝ) :
    estimate_unchanged z_mean z_logvar z2_mean z_logvar
      = estimate_unchanged z2_mean z_logvar z_mean z_logvar := by
  have hd : klDeltas z_mean z_logvar z2_mean z_logvar
      = klDeltas z2_mean z_logvar z_mean z_logvar := by
    funext i j
    simp only [klDeltas, kl_normal_loss_pair_elements]
    ring
  simp only [estimate_unchanged, hd]

/-- C8 witness: the amended invariance instantiated at a concrete pair with
shared logvar tensor. -/
theorem estimate_unchanged_swap_invariant_witness :
    estimate_unchanged exMean exLogvar1 exMean2 exLogvar1
      = estimate_unchanged exMean2 exLogvar1 exMean exLogvar1 :=
  estimate_unchanged_swap_invariant_of_eq_logvar exMean exMean2 exLogvar1

/-- C9: constructing an `AdaVaeLoss` with an `average_mode` outside
`{ml-vae, gvae}` fails with a configuration error naming the offending value
and the set of valid keys, while construction with either valid mode
succeeds. -/
theorem adavae_new_validates_average_mode (beta : ℝ) (average_mode : String) :
    (average_mode ≠ "ml-vae" → average_mode ≠ "gvae" →
        AdaVaeLoss.new beta average_mode
          = Except.error ("Unsupported average_mode=" ++ average_mode
              ++ " must be one of: " ++ "ml-vae, gvae"))
    ∧ (∃ loss1, AdaVaeLoss.new beta "ml-vae" = Except.ok loss1)
    ∧ (∃ loss2, AdaVaeLoss.new beta "gvae" = Except.ok loss2) := by
  refine ⟨?_, ⟨⟨beta, compute_average_ml_vae⟩, rfl⟩, ⟨⟨beta, compute_average_gvae⟩, rfl⟩⟩
  intro h1 h2
  have b1 : (average_mode == "ml-vae") = false := beq_eq_false_iff_ne.mpr h1
  have b2 : (average_mode == "gvae") = false := beq_eq_false_iff_ne.mpr h2
  simp [AdaVaeLoss.new, AVERAGING_FUNCTIONS, List.lookup, b1, b2]
  congr 1

/-- C9 witness: construction with `average_mode="bogus"` fails with the
configuration error, and the valid mode `gvae` succeeds. -/
theorem adavae_new_validates_average_mode_witness :
    AdaVaeLoss.new 4 "bogus"
        = Except.error ("Unsupported average_mode=" ++ "bogus"
            ++ " must be one of: " ++ "ml-vae, gvae")
    ∧ (∃ loss2, AdaVaeLoss.new 4 "gvae" = Except.ok loss2) :=
  ⟨(adavae_new_validates_average_mode 4 "bogus").1 (by decide) (by decide),
   (adavae_new_validates_average_mode 4 "bogus").2.2⟩

end

end Adavae
